import Mathlib

/-!
Verification development for the rschange training harness (`src/train.py`).

The file embeds the metrics/reporting pipeline of the `myTrain` Lightning
module: the per-phase metric accumulators, the `output` report formatter with
its best-test-F1 gating, the three phase-end operations
(`on_train_epoch_end`, `on_validation_epoch_end`) and the embedded full-test
evaluator (`test`).  Machine reals are modelled by rationals; fallible
indexing (Python `IndexError`) is modelled by `Option`.
-/

/-- A per-pixel sample fed to a metric accumulator: (predicted class, ground-truth class). -/
abbrev Sample := Nat × Nat

/-- Modelled from the spec: the torchmetrics accumulators
(`torchmetrics.Accuracy/Precision/Recall/F1Score/JaccardIndex`, constructed in
`myTrain.__init__` lines 45-61) are external library code, not part of
`src/`.  Per spec section 4.1 an accumulator ingests batches of
(prediction, truth) label pairs and maintains running confusion statistics;
we model the state as the multiset (here: list) of all pairs fed since the
last reset, from which the confusion counts are derived. -/
abbrev MetricAcc := List Sample

/-- Modelled from the spec: `update(predicted_labels, true_labels)` ingests one
batch's label pairs into the running state. -/
def MetricAcc.update (a : MetricAcc) (b : List Sample) : MetricAcc := a ++ b

/-- Modelled from the spec: `reset()` clears all running state back to empty. -/
def MetricAcc.reset : MetricAcc := []

/-- True positives of class `c`: samples predicted `c` with ground truth `c`. -/
def countTP (a : MetricAcc) (c : Nat) : Nat := a.countP (fun s => s.1 == c && s.2 == c)

/-- Number of samples predicted as class `c` (TP + FP). -/
def countPred (a : MetricAcc) (c : Nat) : Nat := a.countP (fun s => s.1 == c)

/-- Number of samples whose ground truth is class `c` (TP + FN). -/
def countGT (a : MetricAcc) (c : Nat) : Nat := a.countP (fun s => s.2 == c)

/-- Number of correctly classified samples, all classes pooled. -/
def countCorrect (a : MetricAcc) : Nat := a.countP (fun s => s.1 == s.2)

/-- Division with the NaN-safe default 0 when the denominator vanishes
(spec section 8: metrics are "0 or a documented NaN-safe default when a class
never appears"). -/
def safeDiv (x y : ℚ) : ℚ := if y = 0 then 0 else x / y

/-- Modelled from the spec: per-class precision TP/(TP+FP). -/
def precC (a : MetricAcc) (c : Nat) : ℚ := safeDiv (countTP a c) (countPred a c)

/-- Modelled from the spec: per-class recall TP/(TP+FN). -/
def recC (a : MetricAcc) (c : Nat) : ℚ := safeDiv (countTP a c) (countGT a c)

/-- Modelled from the spec: per-class F1 = 2TP/(2TP+FP+FN), the harmonic mean
of precision and recall. -/
def f1C (a : MetricAcc) (c : Nat) : ℚ := safeDiv (2 * countTP a c) (countPred a c + countGT a c)

/-- Modelled from the spec: per-class intersection-over-union
TP/(TP+FP+FN). -/
def iouC (a : MetricAcc) (c : Nat) : ℚ :=
  safeDiv (countTP a c) (countPred a c + countGT a c - countTP a c)

/-- Modelled from the spec: overall accuracy, the fraction of all samples
correctly classified regardless of class. -/
def oaAcc (a : MetricAcc) : ℚ := safeDiv (countCorrect a) a.length

/-- The per-class metric vector of `compute()`: one value per class index `0..C-1`. -/
def perClass (C : Nat) (f : Nat → ℚ) : List ℚ := (List.range C).map f

/-- Mean over a per-class vector, as `np.mean` on a nonempty list (0 on empty). -/
def meanQ (l : List ℚ) : ℚ := safeDiv l.sum l.length

/-- Embeds `np.round(x, 4)` (train.py lines 90 and 94): round to 4 decimal
digits, ties to even, over the idealized rational semantics of the floats. -/
def round4 (x : ℚ) : ℚ :=
  let s := x * 10000
  let f : Int := Int.floor s
  let r := s - (f : ℚ)
  let n : Int :=
    if r < 1/2 then f
    else if 1/2 < r then f + 1
    else if f % 2 = 0 then f else f + 1
  (n : ℚ) / 10000

/-- One cell of the prettytable built in `myTrain.output`: a class index, a
literal string, or a rounded metric value. -/
inductive Cell where
  | nat : Nat → Cell
  | str : String → Cell
  | q : ℚ → Cell
deriving DecidableEq

/-- Sequencing of fallible per-element computation, as a Python `for` loop
that raises on the first failing index. -/
def optMap (f : α → Option β) : List α → Option (List β)
  | [] => some []
  | a :: as =>
    match f a, optMap f as with
    | some b, some bs => some (b :: bs)
    | _, _ => none

/-- Embeds the per-class row of `myTrain.output` lines 87-91:
`[i, '--'] ++ [round(metrics[j][i], 4) for j]`; indexing out of range fails. -/
def classRow (metrics : List (List ℚ)) (i : Nat) : Option (List Cell) :=
  match optMap (fun m => (m[i]?).map (fun v => Cell.q (round4 v))) metrics with
  | none => none
  | some cells => some (Cell.nat i :: Cell.str ("--") :: cells)

/-- Embeds the table body of `myTrain.output` lines 84-96: one row per class
index in `range(len(metrics[0]))` followed by the `total` row of rounded
aggregate values. -/
def tableRows (metrics : List (List ℚ)) (totalVals : List ℚ) : Option (List (List Cell)) :=
  match metrics[0]? with
  | none => none
  | some m0 =>
    match optMap (classRow metrics) (List.range m0.length) with
    | none => none
    | some rows =>
      some (rows ++ [Cell.str ("total") :: totalVals.map (fun v => Cell.q (round4 v))])

/-- Embeds `os.path.join` as used with the relative file names of
`myTrain.output`. -/
def pathJoin (a b : String) : String := a ++ "/" ++ b

/-- Result of one `myTrain.output` call: whether the table was printed to the
console, the file appends performed as (file name, header line, table) — the
code performs exactly one append per call — and the value of
`self.test_max_f1` after the call. -/
structure OutputRes where
  printed : Bool
  appends : List (String × String × List (List Cell))
  test_max_f1 : ℚ
deriving DecidableEq

/-- Embeds `myTrain.output` (train.py lines 83-118).  Arguments mirror the
fields the method reads: `self.log_dir`, `cfg.exp_name`,
`self.current_epoch`, `self.cfg.epoch`, `self.test_max_f1`, and the method
parameters `metrics` (the four per-class vectors), `total_metrics` (the
ordered log dict) and `mode`.  Returns `none` where the Python raises
`IndexError`. -/
def output (log_dir : Option String) (exp_name : String)
    (current_epoch total_epoch : Nat) (test_max_f1 : ℚ)
    (metrics : List (List ℚ)) (total_metrics : List (String × ℚ))
    (mode : String) : Option OutputRes :=
  match tableRows metrics (total_metrics.map Prod.snd) with
  | none => none
  | some table =>
    let printed := mode == "val" || mode == "test"
    let base_dir := log_dir.getD (pathJoin ("work_dirs") exp_name)
    let header := "epoch:" ++ toString current_epoch ++ "/" ++ toString total_epoch ++ " " ++ mode
    if mode == "test" then
      match (metrics[2]?).bind (fun l => l[1]?) with
      | none => none
      | some v =>
        if test_max_f1 < v then
          some ⟨printed, [(pathJoin base_dir ("test_metrics_max.txt"), header, table)], v⟩
        else
          some ⟨printed, [(pathJoin base_dir ("test_metrics_rest.txt"), header, table)], test_max_f1⟩
    else
      some ⟨printed, [(pathJoin base_dir ("train_metrics.txt"), header, table)], test_max_f1⟩

/-- First index of the maximum entry, embedding `argmax(dim=1)` along the
class dimension for one pixel's score vector (ties go to the first maximal
index); 0 on the empty list. -/
def argmaxIdx : List ℚ → Nat
  | [] => 0
  | x :: xs => if xs.all (fun y => y ≤ x) then 0 else argmaxIdx xs + 1

/-- One pixel of a batch: the per-class scores produced by the model and the
ground-truth class of the label mask. -/
abbrev Pixel := List ℚ × Nat

/-- A batch as seen by the metric pipeline after the external model ran. -/
abbrev Batch := List Pixel

/-- The (prediction, truth) pairs a batch contributes to the accumulators:
`pred = preds.argmax(dim=1)` paired with the mask. -/
def batchSamples (b : Batch) : List Sample := b.map (fun p => (argmaxIdx p.1, p.2))

/-- The configuration fields `myTrain` reads: the class count of the metric
constructors, the total epoch count `cfg.epoch` and `cfg.exp_name`. -/
structure Config where
  num_classes : Nat
  epoch : Nat
  exp_name : String
deriving DecidableEq

/-- The mutable state of `myTrain` relevant to the metrics pipeline: the five
training, five validation and five test accumulators, the running best test
F1 `self.test_max_f1` (initialized to -1, line 63), the fixed test loader
built in `__init__`, the log directory and the current epoch index. -/
structure TrainState where
  cfg : Config
  log_dir : Option String
  current_epoch : Nat
  test_loader : List Batch
  tr_oa : MetricAcc
  tr_prec : MetricAcc
  tr_recall : MetricAcc
  tr_f1 : MetricAcc
  tr_iou : MetricAcc
  val_oa : MetricAcc
  val_prec : MetricAcc
  val_recall : MetricAcc
  val_f1 : MetricAcc
  val_iou : MetricAcc
  test_oa : MetricAcc
  test_prec : MetricAcc
  test_recall : MetricAcc
  test_f1 : MetricAcc
  test_iou : MetricAcc
  test_max_f1 : ℚ
deriving DecidableEq

/-- Embeds the accumulator updates of `myTrain.training_step` lines 126-132:
the argmax predictions and the mask are fed to all five training
accumulators.  Loss computation and step logging involve only external
collaborators and carry no accumulator state. -/
def training_step (st : TrainState) (batch : Batch) : TrainState :=
  let s := batchSamples batch
  { st with
    tr_oa := st.tr_oa.update s
    tr_prec := st.tr_prec.update s
    tr_recall := st.tr_recall.update s
    tr_f1 := st.tr_f1.update s
    tr_iou := st.tr_iou.update s }

/-- Embeds the accumulator updates of `myTrain.validation_step` lines
166-172. -/
def validation_step (st : TrainState) (batch : Batch) : TrainState :=
  let s := batchSamples batch
  { st with
    val_oa := st.val_oa.update s
    val_prec := st.val_prec.update s
    val_recall := st.val_recall.update s
    val_f1 := st.val_f1.update s
    val_iou := st.val_iou.update s }

/-- Embeds the loop body of `myTrain.test` lines 206-215: argmax predictions
of one test batch fed to all five test accumulators. -/
def testStep (st : TrainState) (batch : Batch) : TrainState :=
  let s := batchSamples batch
  { st with
    test_oa := st.test_oa.update s
    test_prec := st.test_prec.update s
    test_recall := st.test_recall.update s
    test_f1 := st.test_f1.update s
    test_iou := st.test_iou.update s }

/-- All samples contributed by a loader, batch by batch, through the argmax
decision rule. -/
def loaderSamples : List Batch → List Sample
  | [] => []
  | b :: bs => batchSamples b ++ loaderSamples bs

/-- The `metrics` list passed to `myTrain.output` by every phase end:
`[prec.compute(), recall.compute(), f1.compute(), iou.compute()]`, four
per-class vectors over `C` classes. -/
def phaseMetrics (C : Nat) (pa ra fa ia : MetricAcc) : List (List ℚ) :=
  [perClass C (precC pa), perClass C (recC ra),
   perClass C (f1C fa), perClass C (iouC ia)]

/-- The ordered log dict built in `myTrain.on_train_epoch_end` lines 143-147:
overall accuracy plus the means of the four per-class vectors. -/
def trainLog (st : TrainState) : List (String × ℚ) :=
  [("tr_oa", oaAcc st.tr_oa),
   ("tr_prec", meanQ (perClass st.cfg.num_classes (precC st.tr_prec))),
   ("tr_recall", meanQ (perClass st.cfg.num_classes (recC st.tr_recall))),
   ("tr_f1", meanQ (perClass st.cfg.num_classes (f1C st.tr_f1))),
   ("tr_miou", meanQ (perClass st.cfg.num_classes (iouC st.tr_iou)))]

/-- The ordered log dict built in `myTrain.on_validation_epoch_end` lines
183-187. -/
def valLog (st : TrainState) : List (String × ℚ) :=
  [("val_oa", oaAcc st.val_oa),
   ("val_prec", meanQ (perClass st.cfg.num_classes (precC st.val_prec))),
   ("val_recall", meanQ (perClass st.cfg.num_classes (recC st.val_recall))),
   ("val_f1", meanQ (perClass st.cfg.num_classes (f1C st.val_f1))),
   ("val_miou", meanQ (perClass st.cfg.num_classes (iouC st.val_iou)))]

/-- The ordered log dict built in `myTrain.test` lines 222-226, read off the
state reached after the batch loop. -/
def testLog (st : TrainState) : List (String × ℚ) :=
  [("test_oa", oaAcc st.test_oa),
   ("test_prec", meanQ (perClass st.cfg.num_classes (precC st.test_prec))),
   ("test_recall", meanQ (perClass st.cfg.num_classes (recC st.test_recall))),
   ("test_f1", meanQ (perClass st.cfg.num_classes (f1C st.test_f1))),
   ("test_miou", meanQ (perClass st.cfg.num_classes (iouC st.test_iou)))]

/-- Embeds `myTrain.test` (train.py lines 205-236): run every batch of the
fixed test loader through the test accumulators, compute the four per-class
vectors and the aggregate log dict, report them via `output` with mode
`test`, reset the five test accumulators, and return `metrics_test[2][1]`,
the change-class F1.  `none` models the `IndexError` raised by the final
indexing when there are fewer than two classes. -/
def test (st : TrainState) : Option (TrainState × OutputRes × ℚ) :=
  let st1 := st.test_loader.foldl testStep st
  match output st.log_dir st.cfg.exp_name st.current_epoch st.cfg.epoch st.test_max_f1
      (phaseMetrics st.cfg.num_classes st1.test_prec st1.test_recall st1.test_f1 st1.test_iou)
      (testLog st1) ("test") with
  | none => none
  | some out =>
    match (perClass st.cfg.num_classes (f1C st1.test_f1))[1]? with
    | none => none
    | some res =>
      some ({ st1 with
        test_oa := MetricAcc.reset, test_prec := MetricAcc.reset,
        test_recall := MetricAcc.reset, test_f1 := MetricAcc.reset,
        test_iou := MetricAcc.reset, test_max_f1 := out.test_max_f1 }, out, res)

/-- Result of a phase-end hook: the state after the hook, the report calls it
made, and the scalar metrics it emitted to the logger in order. -/
structure PhaseEndRes where
  st : TrainState
  outs : List OutputRes
  logs : List (String × ℚ)
deriving DecidableEq

/-- Embeds `myTrain.on_train_epoch_end` (train.py lines 137-159): compute the
four per-class vectors and the aggregate log dict, report via `output` with
mode `train`, emit the five aggregates plus `tr_change_f1 = metrics[2][1]`,
then reset the five training accumulators.  `none` models the `IndexError`
of `metrics[2][1]` when there are fewer than two classes (the resets on
lines 155-159 are then never reached). -/
def on_train_epoch_end (st : TrainState) : Option PhaseEndRes :=
  match output st.log_dir st.cfg.exp_name st.current_epoch st.cfg.epoch st.test_max_f1
      (phaseMetrics st.cfg.num_classes st.tr_prec st.tr_recall st.tr_f1 st.tr_iou)
      (trainLog st) ("train") with
  | none => none
  | some out =>
    match (perClass st.cfg.num_classes (f1C st.tr_f1))[1]? with
    | none => none
    | some chf1 =>
      some ⟨{ st with
        tr_oa := MetricAcc.reset, tr_prec := MetricAcc.reset,
        tr_recall := MetricAcc.reset, tr_f1 := MetricAcc.reset,
        tr_iou := MetricAcc.reset, test_max_f1 := out.test_max_f1 },
        [out], trainLog st ++ [("tr_change_f1", chf1)]⟩

/-- Embeds `myTrain.on_validation_epoch_end` (train.py lines 177-203):
compute and report the validation metrics with mode `val`, emit the five
aggregates plus `val_change_f1 = metrics[2][1]`, reset the five validation
accumulators, then run the embedded full-test evaluation `self.test()` and
emit its result as `test_change_f1`. -/
def on_validation_epoch_end (st : TrainState) : Option PhaseEndRes :=
  match output st.log_dir st.cfg.exp_name st.current_epoch st.cfg.epoch st.test_max_f1
      (phaseMetrics st.cfg.num_classes st.val_prec st.val_recall st.val_f1 st.val_iou)
      (valLog st) ("val") with
  | none => none
  | some out =>
    match (perClass st.cfg.num_classes (f1C st.val_f1))[1]? with
    | none => none
    | some chf1 =>
      match test { st with
        val_oa := MetricAcc.reset, val_prec := MetricAcc.reset,
        val_recall := MetricAcc.reset, val_f1 := MetricAcc.reset,
        val_iou := MetricAcc.reset, test_max_f1 := out.test_max_f1 } with
      | none => none
      | some (st2, outT, res1) =>
        some ⟨st2, [out, outT],
          valLog st ++ [("val_change_f1", chf1), ("test_change_f1", res1)]⟩

/-- The full `compute()` result of one phase's accumulators over `C` classes:
overall accuracy plus the four per-class vectors. -/
def computeAll (C : Nat) (a : MetricAcc) : ℚ × List ℚ × List ℚ × List ℚ × List ℚ :=
  (oaAcc a, perClass C (precC a), perClass C (recC a), perClass C (f1C a), perClass C (iouC a))

/-- The shape of one class row of the report table. -/
def rowFor (f g h k : Nat → ℚ) (i : Nat) : List Cell :=
  [Cell.nat i, Cell.str ("--"), Cell.q (round4 (f i)), Cell.q (round4 (g i)),
   Cell.q (round4 (h i)), Cell.q (round4 (k i))]

/-- The base directory `myTrain.output` resolves on lines 102-105. -/
def baseDir (log_dir : Option String) (exp_name : String) : String :=
  log_dir.getD (pathJoin ("work_dirs") exp_name)

/-- The one-line epoch header written by `myTrain.output` line 116. -/
def epochHeader (current_epoch total_epoch : Nat) (mode : String) : String :=
  "epoch:" ++ toString current_epoch ++ "/" ++ toString total_epoch ++ " " ++ mode

/-- The accumulator of the C3 scenario: reset, then fed the single batch with
predictions `[0,1,1,0]` and ground truth `[0,1,0,0]`. -/
def c3acc : MetricAcc := MetricAcc.reset.update [(0, 0), (1, 1), (1, 0), (0, 0)]

/-- Concrete result of the improving test-mode call used to witness the
amended claim C1. -/
def c1r : OutputRes :=
  ⟨true, [(pathJoin (baseDir none ("e")) ("test_metrics_max.txt"),
    epochHeader 0 10 ("test"), [[Cell.str ("total")]])], (1:ℚ)/2⟩

/-- A synthetic test-mode metric set whose change-class F1 (`metrics[2][1]`)
is `v`, used to drive the gating logic of `myTrain.output` one epoch at a
time. -/
def gateMetrics (v : ℚ) : List (List ℚ) := [[], [], [0, v], []]

/-- One epoch's test report through `myTrain.output`: whether the max
("best") file was appended this epoch, and the updated running best. -/
def gateStep (mx v : ℚ) : Bool × ℚ :=
  match output none ("e") 0 1 mx (gateMetrics v) [] ("test") with
  | none => (false, mx)
  | some r => (r.appends.any (fun a => a.1 == pathJoin ("work_dirs/e") ("test_metrics_max.txt")),
               r.test_max_f1)

/-- The per-epoch sequence of max-file writes produced by a sequence of test
change-class F1 values, threading the running best through `gateStep`. -/
def gateRunFrom (mx : ℚ) : List ℚ → List Bool
  | [] => []
  | v :: vs => (gateStep mx v).1 :: gateRunFrom (gateStep mx v).2 vs

/-- The run starts from the sentinel `self.test_max_f1 = -1` (train.py line 63). -/
def gateRun (vals : List ℚ) : List Bool := gateRunFrom (-1) vals

/-- The full table built by `myTrain.output` for four per-class vectors and a
log dict: one row per class and a trailing total row. -/
def tableFor (C : Nat) (fp fr ff fi : Nat → ℚ) (tm : List (String × ℚ)) : List (List Cell) :=
  (List.range C).map (rowFor fp fr ff fi) ++
    [Cell.str ("total") :: (tm.map Prod.snd).map (fun v => Cell.q (round4 v))]

/-- The state after the batch loop of `myTrain.test`: every test accumulator
extended by the samples of every batch of the fixed test loader. -/
def feedTest (st : TrainState) : TrainState :=
  { st with
    test_oa := st.test_oa ++ loaderSamples st.test_loader,
    test_prec := st.test_prec ++ loaderSamples st.test_loader,
    test_recall := st.test_recall ++ loaderSamples st.test_loader,
    test_f1 := st.test_f1 ++ loaderSamples st.test_loader,
    test_iou := st.test_iou ++ loaderSamples st.test_loader }

/-- The report produced by `myTrain.output` for a train-phase end. -/
def trainOutFor (st : TrainState) : OutputRes :=
  ⟨false,
   [(pathJoin (baseDir st.log_dir st.cfg.exp_name) ("train_metrics.txt"),
     epochHeader st.current_epoch st.cfg.epoch ("train"),
     tableFor st.cfg.num_classes (precC st.tr_prec) (recC st.tr_recall) (f1C st.tr_f1)
       (iouC st.tr_iou) (trainLog st))],
   st.test_max_f1⟩

/-- The report produced by `myTrain.output` for a validation-phase end. -/
def valOutFor (st : TrainState) : OutputRes :=
  ⟨true,
   [(pathJoin (baseDir st.log_dir st.cfg.exp_name) ("train_metrics.txt"),
     epochHeader st.current_epoch st.cfg.epoch ("val"),
     tableFor st.cfg.num_classes (precC st.val_prec) (recC st.val_recall) (f1C st.val_f1)
       (iouC st.val_iou) (valLog st))],
   st.test_max_f1⟩

/-- The report produced by `myTrain.output` inside `myTrain.test`, including
the best-file gating on the change-class F1 of the fed accumulators. -/
def testOutFor (st : TrainState) : OutputRes :=
  ⟨true,
   [(pathJoin (baseDir st.log_dir st.cfg.exp_name)
       (if st.test_max_f1 < f1C (feedTest st).test_f1 1 then ("test_metrics_max.txt")
        else ("test_metrics_rest.txt")),
     epochHeader st.current_epoch st.cfg.epoch ("test"),
     tableFor st.cfg.num_classes (precC (feedTest st).test_prec) (recC (feedTest st).test_recall)
       (f1C (feedTest st).test_f1) (iouC (feedTest st).test_iou) (testLog (feedTest st)))],
   if st.test_max_f1 < f1C (feedTest st).test_f1 1 then f1C (feedTest st).test_f1 1
   else st.test_max_f1⟩

/-- A concrete 2-class harness state with empty accumulators, empty test
loader and the sentinel best F1, used by witnesses. -/
def st2c : TrainState :=
  ⟨⟨2, 1, ("e")⟩, none, 0, [], [], [], [], [], [], [], [], [], [], [], [], [], [], [], [], -1⟩

/-- A concrete 1-class harness state, used to exercise the error branch of
the change-class F1 indexing. -/
def st1c : TrainState :=
  ⟨⟨1, 1, ("e")⟩, none, 0, [], [], [], [], [], [], [], [], [], [], [], [], [], [], [], [], -1⟩

lemma optMap_eq_some (f : α → Option β) (g : α → β) :
    ∀ l : List α, (∀ a ∈ l, f a = some (g a)) → optMap f l = some (l.map g)
  | [], _ => rfl
  | a :: as, h => by
    have h1 : f a = some (g a) := h a (List.mem_cons_self a as)
    have h2 := optMap_eq_some f g as (fun x hx => h x (List.mem_cons_of_mem a hx))
    simp [optMap, h1, h2]

lemma perClass_getElem_lt (C : Nat) (f : Nat → ℚ) (i : Nat) (h : i < C) :
    (perClass C f)[i]? = some (f i) := by
  simp [perClass, List.getElem?_map, List.getElem?_range h]

lemma perClass_getElem_ge (C : Nat) (f : Nat → ℚ) (i : Nat) (h : C ≤ i) :
    (perClass C f)[i]? = none := by
  simp [perClass, List.getElem?_eq_none_iff, h]

lemma perClass_length (C : Nat) (f : Nat → ℚ) : (perClass C f).length = C := by
  simp [perClass]

lemma classRow_perClass (C : Nat) (f g h k : Nat → ℚ) (i : Nat) (hi : i < C) :
    classRow [perClass C f, perClass C g, perClass C h, perClass C k] i =
      some (rowFor f g h k i) := by
  simp [classRow, optMap, perClass_getElem_lt _ _ _ hi, rowFor]

lemma tableRows_perClass (C : Nat) (f g h k : Nat → ℚ) (tv : List ℚ) :
    tableRows [perClass C f, perClass C g, perClass C h, perClass C k] tv =
      some ((List.range C).map (rowFor f g h k) ++
        [Cell.str ("total") :: tv.map (fun v => Cell.q (round4 v))]) := by
  have hmap : optMap (classRow [perClass C f, perClass C g, perClass C h, perClass C k])
      (List.range (perClass C f).length) = some ((List.range C).map (rowFor f g h k)) := by
    rw [perClass_length]
    exact optMap_eq_some _ _ _ (fun i hi => classRow_perClass C f g h k i (List.mem_range.mp hi))
  simp [tableRows, hmap]

lemma output_not_test (ld : Option String) (en : String) (ce te : Nat) (mx : ℚ)
    (metrics : List (List ℚ)) (tm : List (String × ℚ)) (mode : String)
    (table : List (List Cell))
    (hmode : (mode == "test") = false)
    (ht : tableRows metrics (tm.map Prod.snd) = some table) :
    output ld en ce te mx metrics tm mode =
      some ⟨mode == "val" || mode == "test",
            [(pathJoin (baseDir ld en) ("train_metrics.txt"),
              epochHeader ce te mode, table)], mx⟩ := by
  simp [output, ht, hmode, baseDir, epochHeader]

lemma output_test_some (ld : Option String) (en : String) (ce te : Nat) (mx : ℚ)
    (metrics : List (List ℚ)) (tm : List (String × ℚ)) (l : List ℚ) (v : ℚ)
    (table : List (List Cell))
    (ht : tableRows metrics (tm.map Prod.snd) = some table)
    (h2 : metrics[2]? = some l) (h1 : l[1]? = some v) :
    output ld en ce te mx metrics tm ("test") =
      some ⟨true,
            [(pathJoin (baseDir ld en)
                (if mx < v then ("test_metrics_max.txt") else ("test_metrics_rest.txt")),
              epochHeader ce te ("test"), table)],
            if mx < v then v else mx⟩ := by
  by_cases hv : mx < v
  · simp [output, ht, h2, h1, hv, baseDir, epochHeader]
  · simp [output, ht, h2, h1, hv, baseDir, epochHeader]

lemma output_test_noChange (ld : Option String) (en : String) (ce te : Nat) (mx : ℚ)
    (metrics : List (List ℚ)) (tm : List (String × ℚ)) (l : List ℚ)
    (h2 : metrics[2]? = some l) (h1 : l[1]? = none) :
    output ld en ce te mx metrics tm ("test") = none := by
  simp only [output, h2, h1]
  split <;> simp [h1]

lemma foldl_testStep (loader : List Batch) (st : TrainState) :
    loader.foldl testStep st = { st with
      test_oa := st.test_oa ++ loaderSamples loader,
      test_prec := st.test_prec ++ loaderSamples loader,
      test_recall := st.test_recall ++ loaderSamples loader,
      test_f1 := st.test_f1 ++ loaderSamples loader,
      test_iou := st.test_iou ++ loaderSamples loader } := by
  induction loader generalizing st with
  | nil => simp [loaderSamples]
  | cons b bs ih =>
    cases st
    simp [loaderSamples, List.foldl_cons, testStep, MetricAcc.update, ih, List.append_assoc]

lemma gateStep_spec (mx v : ℚ) :
    gateStep mx v = (decide (mx < v), if mx < v then v else mx) := by
  have ht : tableRows (gateMetrics v) (([] : List (String × ℚ)).map Prod.snd) =
      some [[Cell.str ("total")]] := rfl
  have h := output_test_some none ("e") 0 1 mx (gateMetrics v) [] [0, v] v
    [[Cell.str ("total")]] ht rfl rfl
  by_cases hv : mx < v
  · rw [gateStep, h]
    simp [hv, pathJoin, baseDir]
  · rw [gateStep, h]
    simp [hv, pathJoin, baseDir]

lemma gateRunFrom_cons (mx v : ℚ) (vs : List ℚ) :
    gateRunFrom mx (v :: vs) =
      decide (mx < v) :: gateRunFrom (if mx < v then v else mx) vs := by
  rw [gateRunFrom, gateStep_spec]

lemma gateRunFrom_get (vals : List ℚ) : ∀ (mx : ℚ) (k : Nat) (v : ℚ), vals[k]? = some v →
    ((gateRunFrom mx vals)[k]? = some true ↔
      mx < v ∧ ∀ j w, j < k → vals[j]? = some w → w < v) := by
  induction vals with
  | nil => intro mx k v hk; simp at hk
  | cons v0 vs ih =>
    intro mx k v hk
    cases k with
    | zero =>
      rw [List.getElem?_cons_zero] at hk
      obtain rfl := Option.some.inj hk
      rw [gateRunFrom_cons, List.getElem?_cons_zero]
      constructor
      · intro h
        exact ⟨of_decide_eq_true (Option.some.inj h),
          fun j w hj _ => absurd hj (Nat.not_lt_zero j)⟩
      · intro h
        rw [decide_eq_true h.1]
    | succ k =>
      rw [List.getElem?_cons_succ] at hk
      rw [gateRunFrom_cons, List.getElem?_cons_succ, ih (if mx < v0 then v0 else mx) k v hk]
      constructor
      · rintro ⟨h1, h2⟩
        have hmx : mx < v ∧ v0 < v := by
          by_cases h0 : mx < v0
          · rw [if_pos h0] at h1
            exact ⟨lt_trans h0 h1, h1⟩
          · rw [if_neg h0] at h1
            exact ⟨h1, lt_of_le_of_lt (le_of_not_lt h0) h1⟩
        refine ⟨hmx.1, fun j w hj hw => ?_⟩
        cases j with
        | zero =>
          rw [List.getElem?_cons_zero] at hw
          obtain rfl := Option.some.inj hw
          exact hmx.2
        | succ j =>
          rw [List.getElem?_cons_succ] at hw
          exact h2 j w (Nat.lt_of_succ_lt_succ hj) hw
      · rintro ⟨h1, h2⟩
        have h0 : v0 < v := h2 0 v0 (Nat.succ_pos k) List.getElem?_cons_zero
        refine ⟨?_, fun j w hj hw =>
          h2 (j + 1) w (Nat.succ_lt_succ hj) (by rw [List.getElem?_cons_succ]; exact hw)⟩
        by_cases hmv : mx < v0
        · rw [if_pos hmv]; exact h0
        · rw [if_neg hmv]; exact h1

lemma tableRows_phase (C : Nat) (pa ra fa ia : MetricAcc) (tm : List (String × ℚ)) :
    tableRows (phaseMetrics C pa ra fa ia) (tm.map Prod.snd) =
      some (tableFor C (precC pa) (recC ra) (f1C fa) (iouC ia) tm) :=
  tableRows_perClass C (precC pa) (recC ra) (f1C fa) (iouC ia) (tm.map Prod.snd)

lemma foldl_testStep_self (st : TrainState) :
    st.test_loader.foldl testStep st = feedTest st :=
  foldl_testStep st.test_loader st

lemma test_eq (st : TrainState) (h2 : 2 ≤ st.cfg.num_classes) :
    test st = some
      ({ feedTest st with
          test_oa := MetricAcc.reset, test_prec := MetricAcc.reset,
          test_recall := MetricAcc.reset, test_f1 := MetricAcc.reset,
          test_iou := MetricAcc.reset, test_max_f1 := (testOutFor st).test_max_f1 },
        testOutFor st, f1C (feedTest st).test_f1 1) := by
  have hg : (perClass st.cfg.num_classes (f1C (feedTest st).test_f1))[1]? =
      some (f1C (feedTest st).test_f1 1) := perClass_getElem_lt _ _ 1 (by omega)
  have hout := output_test_some st.log_dir st.cfg.exp_name st.current_epoch st.cfg.epoch
    st.test_max_f1
    (phaseMetrics st.cfg.num_classes (feedTest st).test_prec (feedTest st).test_recall
      (feedTest st).test_f1 (feedTest st).test_iou)
    (testLog (feedTest st))
    (perClass st.cfg.num_classes (f1C (feedTest st).test_f1))
    (f1C (feedTest st).test_f1 1)
    (tableFor st.cfg.num_classes (precC (feedTest st).test_prec) (recC (feedTest st).test_recall)
      (f1C (feedTest st).test_f1) (iouC (feedTest st).test_iou) (testLog (feedTest st)))
    (tableRows_phase st.cfg.num_classes (feedTest st).test_prec (feedTest st).test_recall
      (feedTest st).test_f1 (feedTest st).test_iou (testLog (feedTest st)))
    rfl hg
  simp only [test, foldl_testStep_self, hout, hg]
  rfl

lemma on_train_epoch_end_eq (st : TrainState) (h2 : 2 ≤ st.cfg.num_classes) :
    on_train_epoch_end st = some
      ⟨{ st with
          tr_oa := MetricAcc.reset, tr_prec := MetricAcc.reset,
          tr_recall := MetricAcc.reset, tr_f1 := MetricAcc.reset,
          tr_iou := MetricAcc.reset, test_max_f1 := st.test_max_f1 },
        [trainOutFor st], trainLog st ++ [("tr_change_f1", f1C st.tr_f1 1)]⟩ := by
  have hg : (perClass st.cfg.num_classes (f1C st.tr_f1))[1]? = some (f1C st.tr_f1 1) :=
    perClass_getElem_lt _ _ 1 (by omega)
  have hout := output_not_test st.log_dir st.cfg.exp_name st.current_epoch st.cfg.epoch
    st.test_max_f1
    (phaseMetrics st.cfg.num_classes st.tr_prec st.tr_recall st.tr_f1 st.tr_iou)
    (trainLog st) ("train")
    (tableFor st.cfg.num_classes (precC st.tr_prec) (recC st.tr_recall) (f1C st.tr_f1)
      (iouC st.tr_iou) (trainLog st))
    rfl
    (tableRows_phase st.cfg.num_classes st.tr_prec st.tr_recall st.tr_f1 st.tr_iou (trainLog st))
  simp only [on_train_epoch_end, hout, hg]
  rfl

lemma on_validation_epoch_end_eq (st : TrainState) (h2 : 2 ≤ st.cfg.num_classes) :
    on_validation_epoch_end st =
      (test { st with
          val_oa := MetricAcc.reset, val_prec := MetricAcc.reset,
          val_recall := MetricAcc.reset, val_f1 := MetricAcc.reset,
          val_iou := MetricAcc.reset, test_max_f1 := st.test_max_f1 }).map
        (fun p => ⟨p.1, [valOutFor st, p.2.1],
          valLog st ++ [("val_change_f1", f1C st.val_f1 1), ("test_change_f1", p.2.2)]⟩) := by
  have hg : (perClass st.cfg.num_classes (f1C st.val_f1))[1]? = some (f1C st.val_f1 1) :=
    perClass_getElem_lt _ _ 1 (by omega)
  have hout := output_not_test st.log_dir st.cfg.exp_name st.current_epoch st.cfg.epoch
    st.test_max_f1
    (phaseMetrics st.cfg.num_classes st.val_prec st.val_recall st.val_f1 st.val_iou)
    (valLog st) ("val")
    (tableFor st.cfg.num_classes (precC st.val_prec) (recC st.val_recall) (f1C st.val_f1)
      (iouC st.val_iou) (valLog st))
    rfl
    (tableRows_phase st.cfg.num_classes st.val_prec st.val_recall st.val_f1 st.val_iou (valLog st))
  simp only [on_validation_epoch_end, hout, hg]
  cases test { st with
      val_oa := MetricAcc.reset, val_prec := MetricAcc.reset,
      val_recall := MetricAcc.reset, val_f1 := MetricAcc.reset,
      val_iou := MetricAcc.reset, test_max_f1 := st.test_max_f1 } with
  | none => rfl
  | some p =>
    obtain ⟨st2, outT, res1⟩ := p
    rfl

/-- Claim C3, counterexample: on the scenario batch (predictions `[0,1,1,0]`,
ground truth `[0,1,0,0]`) the claimed value set is wrong — class-1 precision
is 1/2, not 1, and class-1 recall is 1, not 1/2. -/
theorem C3_counterexample :
    ¬ (oaAcc c3acc = 3/4 ∧ (perClass 2 (precC c3acc))[1]? = some 1 ∧
       (perClass 2 (recC c3acc))[1]? = some (1/2) ∧
       (perClass 2 (f1C c3acc))[1]? = some (2/3) ∧
       (perClass 2 (iouC c3acc))[1]? = some (1/2)) := by
  norm_num [c3acc, oaAcc, precC, recC, f1C, iouC, safeDiv, countTP, countPred,
    countGT, countCorrect, MetricAcc.update, MetricAcc.reset, perClass,
    List.range_succ, List.countP_cons, List.countP_nil]

/-- Claim C3, amended: for the 2-class accumulator fed the single batch with
predictions `[0,1,1,0]` and ground truth `[0,1,0,0]`, `compute()` yields
overall accuracy 3/4, class-1 precision 1/2, class-1 recall 1, class-1 F1
2/3 and class-1 IoU 1/2 (the claim had precision and recall swapped). -/
theorem C3_scenario :
    oaAcc c3acc = 3/4 ∧ (perClass 2 (precC c3acc))[1]? = some (1/2) ∧
    (perClass 2 (recC c3acc))[1]? = some 1 ∧
    (perClass 2 (f1C c3acc))[1]? = some (2/3) ∧
    (perClass 2 (iouC c3acc))[1]? = some (1/2) := by
  norm_num [c3acc, oaAcc, precC, recC, f1C, iouC, safeDiv, countTP, countPred,
    countGT, countCorrect, MetricAcc.update, MetricAcc.reset, perClass,
    List.range_succ, List.countP_cons, List.countP_nil]

/-- Claim C7: accumulator update is commutative across batches — feeding two
batches in either order into a freshly reset accumulator yields identical
`compute()` results (overall accuracy and all four per-class vectors). -/
theorem C7_update_comm (C : Nat) (B1 B2 : List Sample) :
    computeAll C ((MetricAcc.reset.update B1).update B2) =
      computeAll C ((MetricAcc.reset.update B2).update B1) := by
  have hc : ∀ p : Sample → Bool,
      ((MetricAcc.reset.update B1).update B2).countP p =
        ((MetricAcc.reset.update B2).update B1).countP p := by
    intro p
    simp [MetricAcc.update, MetricAcc.reset, List.countP_append, Nat.add_comm]
  have hlen : ((MetricAcc.reset.update B1).update B2).length =
      ((MetricAcc.reset.update B2).update B1).length := by
    simp [MetricAcc.update, MetricAcc.reset, Nat.add_comm]
  have hprec : precC ((MetricAcc.reset.update B1).update B2) =
      precC ((MetricAcc.reset.update B2).update B1) := by
    funext c; unfold precC countTP countPred; rw [hc, hc]
  have hrec : recC ((MetricAcc.reset.update B1).update B2) =
      recC ((MetricAcc.reset.update B2).update B1) := by
    funext c; unfold recC countTP countGT; rw [hc, hc]
  have hf1 : f1C ((MetricAcc.reset.update B1).update B2) =
      f1C ((MetricAcc.reset.update B2).update B1) := by
    funext c; unfold f1C countTP countPred countGT; rw [hc, hc, hc]
  have hiou : iouC ((MetricAcc.reset.update B1).update B2) =
      iouC ((MetricAcc.reset.update B2).update B1) := by
    funext c; unfold iouC countTP countPred countGT; rw [hc, hc, hc]
  have hoa : oaAcc ((MetricAcc.reset.update B1).update B2) =
      oaAcc ((MetricAcc.reset.update B2).update B1) := by
    unfold oaAcc countCorrect; rw [hc, hlen]
  unfold computeAll
  rw [hoa, hprec, hrec, hf1, hiou]

/-- Claim C1, counterexample: a test-mode call whose change-class F1 (1/2)
strictly exceeds the running best (-1) appends ONLY to the max file — the
rest ("latest") file receives no append, so an improving call does not
produce appends to both files. -/
theorem C1_counterexample :
    (output none ("e") 0 10 (-1) [[], [], [0, (1:ℚ)/2], []] [] ("test")).map
        (fun r => r.appends.map Prod.fst) = some [("work_dirs/e/test_metrics_max.txt")] ∧
    ("work_dirs/e/test_metrics_max.txt" : String) ≠ ("work_dirs/e/test_metrics_rest.txt") := by
  constructor
  · have ht : tableRows [[], [], [0, (1:ℚ)/2], []] (([] : List (String × ℚ)).map Prod.snd) =
        some [[Cell.str ("total")]] := rfl
    rw [output_test_some none ("e") 0 10 (-1) [[], [], [0, (1:ℚ)/2], []] []
      [0, (1:ℚ)/2] ((1:ℚ)/2) [[Cell.str ("total")]] ht rfl rfl]
    rw [if_pos (by norm_num : (-1:ℚ) < 1/2)]
    rfl
  · decide

/-- Claim C1, amended: every test-mode report call performs exactly one file
append — to the max ("best") file when the change-class F1 strictly exceeds
the running best (which is then updated to it), and otherwise to the rest
("latest") file (with the best unchanged); an improving call therefore
appends only to the max file. -/
theorem C1_test_single_append (ld : Option String) (en : String) (ce te : Nat)
    (mx : ℚ) (metrics : List (List ℚ)) (tm : List (String × ℚ)) (l : List ℚ) (v : ℚ)
    (r : OutputRes)
    (h2 : metrics[2]? = some l) (h1 : l[1]? = some v)
    (hr : output ld en ce te mx metrics tm ("test") = some r) :
    r.appends.map Prod.fst =
      [pathJoin (baseDir ld en)
        (if mx < v then ("test_metrics_max.txt") else ("test_metrics_rest.txt"))] ∧
    r.test_max_f1 = (if mx < v then v else mx) := by
  cases ht : tableRows metrics (tm.map Prod.snd) with
  | none => simp [output, ht] at hr
  | some table =>
    rw [output_test_some ld en ce te mx metrics tm l v table ht h2 h1] at hr
    obtain rfl := Option.some.inj hr
    exact ⟨rfl, rfl⟩

/-- Witness for the amended claim C1 at a concrete improving call. -/
theorem C1_test_single_append_witness :
    c1r.appends.map Prod.fst = [pathJoin (baseDir none ("e")) ("test_metrics_max.txt")] ∧
    c1r.test_max_f1 = (1:ℚ)/2 := by
  have hr : output none ("e") 0 10 (-1) [[], [], [0, (1:ℚ)/2], []] [] ("test") = some c1r := by
    have ht : tableRows [[], [], [0, (1:ℚ)/2], []] (([] : List (String × ℚ)).map Prod.snd) =
        some [[Cell.str ("total")]] := rfl
    rw [output_test_some none ("e") 0 10 (-1) [[], [], [0, (1:ℚ)/2], []] []
      [0, (1:ℚ)/2] ((1:ℚ)/2) [[Cell.str ("total")]] ht rfl rfl]
    rw [if_pos (by norm_num : (-1:ℚ) < 1/2), if_pos (by norm_num : (-1:ℚ) < 1/2)]
    rfl
  have h := C1_test_single_append none ("e") 0 10 (-1) [[], [], [0, (1:ℚ)/2], []] []
    [0, (1:ℚ)/2] ((1:ℚ)/2) c1r rfl rfl hr
  rw [if_pos (by norm_num : (-1:ℚ) < 1/2), if_pos (by norm_num : (-1:ℚ) < 1/2)] at h
  exact h

/-- Claim C2, counterexample: a concrete call of the report operation with
mode `val` appends to exactly the same file as the call with mode `train`
(both select `train_metrics.txt`), so the file chosen for `val` is not
distinct from the one chosen for `train`. -/
theorem C2_counterexample :
    (output none ("e") 0 10 0 [[], [], [], []] [] ("val")).map
        (fun r => r.appends.map Prod.fst) =
      (output none ("e") 0 10 0 [[], [], [], []] [] ("train")).map
        (fun r => r.appends.map Prod.fst) ∧
    (output none ("e") 0 10 0 [[], [], [], []] [] ("val")).map
        (fun r => r.appends.map Prod.fst) = some [("work_dirs/e/train_metrics.txt")] := by
  exact ⟨rfl, rfl⟩

/-- Claim C2, amended: training and validation reports are appended to the
SAME file — for every call that succeeds, mode `val` and mode `train` both
select the single file `train_metrics.txt` under the run's base directory
(only test mode uses different files). -/
theorem C2_val_same_file_as_train (ld : Option String) (en : String) (ce te : Nat)
    (mx : ℚ) (metrics : List (List ℚ)) (tm : List (String × ℚ)) (rv rt : OutputRes)
    (hv : output ld en ce te mx metrics tm ("val") = some rv)
    (ht : output ld en ce te mx metrics tm ("train") = some rt) :
    rv.appends.map Prod.fst = rt.appends.map Prod.fst ∧
    rv.appends.map Prod.fst = [pathJoin (baseDir ld en) ("train_metrics.txt")] := by
  cases htab : tableRows metrics (tm.map Prod.snd) with
  | none => simp [output, htab] at hv
  | some table =>
    rw [output_not_test ld en ce te mx metrics tm ("val") table rfl htab] at hv
    rw [output_not_test ld en ce te mx metrics tm ("train") table rfl htab] at ht
    obtain rfl := Option.some.inj hv
    obtain rfl := Option.some.inj ht
    exact ⟨rfl, rfl⟩

/-- Witness for the amended claim C2 at a concrete call. -/
theorem C2_val_same_file_as_train_witness :
    (⟨true, [(pathJoin (baseDir none ("e")) ("train_metrics.txt"),
        epochHeader 0 10 ("val"), [[Cell.str ("total")]])], 0⟩ : OutputRes).appends.map Prod.fst =
      [pathJoin (baseDir none ("e")) ("train_metrics.txt")] := by
  exact (C2_val_same_file_as_train none ("e") 0 10 0 [[], [], [], []] [] _ _ rfl rfl).2

/-- Claim C9: the report operation leaves the running best test F1 unchanged
for mode `train` and for mode `val`, and even in mode `test` it is unchanged
unless the call's change-class F1 strictly exceeds it. -/
theorem C9_max_f1_frame (ld : Option String) (en : String) (ce te : Nat) (mx : ℚ)
    (metrics : List (List ℚ)) (tm : List (String × ℚ)) :
    (∀ r, output ld en ce te mx metrics tm ("train") = some r → r.test_max_f1 = mx) ∧
    (∀ r, output ld en ce te mx metrics tm ("val") = some r → r.test_max_f1 = mx) ∧
    (∀ l v r, metrics[2]? = some l → l[1]? = some v → ¬ mx < v →
      output ld en ce te mx metrics tm ("test") = some r → r.test_max_f1 = mx) := by
  refine ⟨fun r hr => ?_, fun r hr => ?_, fun l v r h2 h1 hnot hr => ?_⟩
  · cases htab : tableRows metrics (tm.map Prod.snd) with
    | none => simp [output, htab] at hr
    | some table =>
      rw [output_not_test ld en ce te mx metrics tm ("train") table rfl htab] at hr
      obtain rfl := Option.some.inj hr
      rfl
  · cases htab : tableRows metrics (tm.map Prod.snd) with
    | none => simp [output, htab] at hr
    | some table =>
      rw [output_not_test ld en ce te mx metrics tm ("val") table rfl htab] at hr
      obtain rfl := Option.some.inj hr
      rfl
  · cases htab : tableRows metrics (tm.map Prod.snd) with
    | none => simp [output, htab] at hr
    | some table =>
      rw [output_test_some ld en ce te mx metrics tm l v table htab h2 h1] at hr
      obtain rfl := Option.some.inj hr
      simp [if_neg hnot]

/-- Witness for claim C9: a concrete train-mode call leaves a best test F1
of 5 unchanged. -/
theorem C9_max_f1_frame_witness :
    (⟨false, [(pathJoin (baseDir none ("e")) ("train_metrics.txt"),
        epochHeader 0 10 ("train"), [[Cell.str ("total")]])], 5⟩ : OutputRes).test_max_f1 = 5 := by
  exact (C9_max_f1_frame none ("e") 0 10 5 [[], [], [], []] []).1 _ rfl

/-- Claim C4: starting from the sentinel -1, the sequence of test change-F1
values [0.1, 0.5, 0.3, 0.7] writes the max ("best") test file exactly at
epochs 0, 1 and 3, not at epoch 2; and in general (for F1 values above the
sentinel) the max file is written at epoch k iff that epoch's change-class
F1 strictly exceeds every earlier epoch's value. -/
theorem C4_checkpoint_gating (vals : List ℚ) (hpos : ∀ v ∈ vals, (-1 : ℚ) < v) :
    gateRun [1/10, 1/2, 3/10, 7/10] = [true, true, false, true] ∧
    ∀ (k : Nat) (v : ℚ), vals[k]? = some v →
      ((gateRun vals)[k]? = some true ↔
        ∀ (j : Nat) (w : ℚ), j < k → vals[j]? = some w → w < v) := by
  constructor
  · rw [gateRun, gateRunFrom_cons, gateRunFrom_cons, gateRunFrom_cons, gateRunFrom_cons]
    norm_num
    rfl
  · intro k v hk
    rw [gateRun, gateRunFrom_get vals (-1) k v hk]
    have hv : (-1 : ℚ) < v := hpos v (List.getElem?_mem hk)
    simp [hv]

/-- Witness for claim C4: the concrete gating sequence, with the hypothesis
discharged at a concrete value list. -/
theorem C4_checkpoint_gating_witness :
    gateRun [1/10, 1/2, 3/10, 7/10] = [true, true, false, true] := by
  exact (C4_checkpoint_gating [] (by intro v hv; simp at hv)).1

/-- Claim C5: each phase-end operation resets all five of its phase's metric
accumulators — after `on_train_epoch_end` the five training accumulators are
empty, after `on_validation_epoch_end` the five validation accumulators are
empty, and after the embedded `test` pass the five test accumulators are
empty, so no accumulator state is carried into the next use. -/
theorem C5_phase_resets (st : TrainState) (h2 : 2 ≤ st.cfg.num_classes) :
    (on_train_epoch_end st).map
        (fun r => (r.st.tr_oa, r.st.tr_prec, r.st.tr_recall, r.st.tr_f1, r.st.tr_iou)) =
      some (MetricAcc.reset, MetricAcc.reset, MetricAcc.reset, MetricAcc.reset,
        MetricAcc.reset) ∧
    (on_validation_epoch_end st).map
        (fun r => (r.st.val_oa, r.st.val_prec, r.st.val_recall, r.st.val_f1, r.st.val_iou)) =
      some (MetricAcc.reset, MetricAcc.reset, MetricAcc.reset, MetricAcc.reset,
        MetricAcc.reset) ∧
    (test st).map
        (fun p => (p.1.test_oa, p.1.test_prec, p.1.test_recall, p.1.test_f1, p.1.test_iou)) =
      some (MetricAcc.reset, MetricAcc.reset, MetricAcc.reset, MetricAcc.reset,
        MetricAcc.reset) := by
  refine ⟨?_, ?_, ?_⟩
  · rw [on_train_epoch_end_eq st h2]
    rfl
  · rw [on_validation_epoch_end_eq st h2,
      test_eq { st with
        val_oa := MetricAcc.reset, val_prec := MetricAcc.reset,
        val_recall := MetricAcc.reset, val_f1 := MetricAcc.reset,
        val_iou := MetricAcc.reset, test_max_f1 := st.test_max_f1 } h2]
    rfl
  · rw [test_eq st h2]
    rfl

/-- Witness for claim C5 at a concrete 2-class state. -/
theorem C5_phase_resets_witness :
    (on_train_epoch_end st2c).map
        (fun r => (r.st.tr_oa, r.st.tr_prec, r.st.tr_recall, r.st.tr_f1, r.st.tr_iou)) =
      some (MetricAcc.reset, MetricAcc.reset, MetricAcc.reset, MetricAcc.reset,
        MetricAcc.reset) :=
  (C5_phase_resets st2c (by decide)).1

/-- Claim C6: the embedded full-test evaluator feeds the argmax predictions
of every batch of the fixed test loader into the test accumulators, reports
via the report operation with a test-mode header, resets the test
accumulators, and returns the change-class F1 (per-class F1 at index 1) of
the fed accumulator as its single scalar result; the validation-phase-end
hook that invokes it emits that result as `test_change_f1`, a signal
distinct from `val_change_f1`. -/
theorem C6_embedded_test (st : TrainState) (h2 : 2 ≤ st.cfg.num_classes) :
    (test st).map (fun p => p.2.2) =
      some (f1C (st.test_f1 ++ loaderSamples st.test_loader) 1) ∧
    (test st).map
        (fun p => (p.1.test_oa, p.1.test_prec, p.1.test_recall, p.1.test_f1, p.1.test_iou)) =
      some (MetricAcc.reset, MetricAcc.reset, MetricAcc.reset, MetricAcc.reset,
        MetricAcc.reset) ∧
    (test st).map (fun p => p.2.1.appends.map (fun a => a.2.1)) =
      some [epochHeader st.current_epoch st.cfg.epoch ("test")] ∧
    (on_validation_epoch_end st).map (fun r => r.logs.map Prod.fst) =
      some [("val_oa"), ("val_prec"), ("val_recall"), ("val_f1"), ("val_miou"),
        ("val_change_f1"), ("test_change_f1")] ∧
    (on_validation_epoch_end st).map (fun r => r.logs.getLast?.map Prod.snd) =
      some (some (f1C (st.test_f1 ++ loaderSamples st.test_loader) 1)) := by
  refine ⟨?_, ?_, ?_, ?_, ?_⟩
  · rw [test_eq st h2]
    rfl
  · rw [test_eq st h2]
    rfl
  · rw [test_eq st h2]
    rfl
  · rw [on_validation_epoch_end_eq st h2,
      test_eq { st with
        val_oa := MetricAcc.reset, val_prec := MetricAcc.reset,
        val_recall := MetricAcc.reset, val_f1 := MetricAcc.reset,
        val_iou := MetricAcc.reset, test_max_f1 := st.test_max_f1 } h2]
    rfl
  · rw [on_validation_epoch_end_eq st h2,
      test_eq { st with
        val_oa := MetricAcc.reset, val_prec := MetricAcc.reset,
        val_recall := MetricAcc.reset, val_f1 := MetricAcc.reset,
        val_iou := MetricAcc.reset, test_max_f1 := st.test_max_f1 } h2]
    rfl

/-- Witness for claim C6 at a concrete 2-class state. -/
theorem C6_embedded_test_witness :
    (test st2c).map (fun p => p.2.2) =
      some (f1C (st2c.test_f1 ++ loaderSamples st2c.test_loader) 1) :=
  (C6_embedded_test st2c (by decide)).1

/-- Claim C10: every operation that extracts the change-class F1 indexes the
per-class F1 vector at position 1, so with fewer than two classes the
indexing has no value and the whole operation lands in the error branch
(`none`); under the precondition of at least two classes that branch is
unreachable and every operation succeeds. -/
theorem C10_change_f1_indexing (st : TrainState) :
    (st.cfg.num_classes < 2 →
      on_train_epoch_end st = none ∧ on_validation_epoch_end st = none ∧ test st = none) ∧
    (2 ≤ st.cfg.num_classes →
      (on_train_epoch_end st).isSome ∧ (on_validation_epoch_end st).isSome ∧
        (test st).isSome) := by
  constructor
  · intro hlt
    refine ⟨?_, ?_, ?_⟩
    · have hout := output_not_test st.log_dir st.cfg.exp_name st.current_epoch st.cfg.epoch
        st.test_max_f1
        (phaseMetrics st.cfg.num_classes st.tr_prec st.tr_recall st.tr_f1 st.tr_iou)
        (trainLog st) ("train")
        (tableFor st.cfg.num_classes (precC st.tr_prec) (recC st.tr_recall) (f1C st.tr_f1)
          (iouC st.tr_iou) (trainLog st))
        rfl
        (tableRows_phase st.cfg.num_classes st.tr_prec st.tr_recall st.tr_f1 st.tr_iou
          (trainLog st))
      have hg : (perClass st.cfg.num_classes (f1C st.tr_f1))[1]? = none :=
        perClass_getElem_ge _ _ 1 (by omega)
      simp only [on_train_epoch_end, hout, hg]
    · have hout := output_not_test st.log_dir st.cfg.exp_name st.current_epoch st.cfg.epoch
        st.test_max_f1
        (phaseMetrics st.cfg.num_classes st.val_prec st.val_recall st.val_f1 st.val_iou)
        (valLog st) ("val")
        (tableFor st.cfg.num_classes (precC st.val_prec) (recC st.val_recall) (f1C st.val_f1)
          (iouC st.val_iou) (valLog st))
        rfl
        (tableRows_phase st.cfg.num_classes st.val_prec st.val_recall st.val_f1 st.val_iou
          (valLog st))
      have hg : (perClass st.cfg.num_classes (f1C st.val_f1))[1]? = none :=
        perClass_getElem_ge _ _ 1 (by omega)
      simp only [on_validation_epoch_end, hout, hg]
    · have hnone : (perClass st.cfg.num_classes (f1C (feedTest st).test_f1))[1]? = none :=
        perClass_getElem_ge _ _ 1 (by omega)
      have hout := output_test_noChange st.log_dir st.cfg.exp_name st.current_epoch
        st.cfg.epoch st.test_max_f1
        (phaseMetrics st.cfg.num_classes (feedTest st).test_prec (feedTest st).test_recall
          (feedTest st).test_f1 (feedTest st).test_iou)
        (testLog (feedTest st))
        (perClass st.cfg.num_classes (f1C (feedTest st).test_f1))
        rfl hnone
      simp only [test, foldl_testStep_self, hout]
  · intro h2
    refine ⟨?_, ?_, ?_⟩
    · rw [on_train_epoch_end_eq st h2]
      rfl
    · rw [on_validation_epoch_end_eq st h2,
        test_eq { st with
          val_oa := MetricAcc.reset, val_prec := MetricAcc.reset,
          val_recall := MetricAcc.reset, val_f1 := MetricAcc.reset,
          val_iou := MetricAcc.reset, test_max_f1 := st.test_max_f1 } h2]
      rfl
    · rw [test_eq st h2]
      rfl

/-- Witness for claim C10: the error branch is taken at a concrete 1-class
state and avoided at a concrete 2-class state. -/
theorem C10_change_f1_indexing_witness :
    on_train_epoch_end st1c = none ∧ (on_train_epoch_end st2c).isSome :=
  ⟨((C10_change_f1_indexing st1c).1 (by decide)).1,
   ((C10_change_f1_indexing st2c).2 (by decide)).1⟩

/-- Claim C8: for per-class metric vectors over `C` classes, the report is a
table with one row per class — class index, the OA placeholder `--`, and
precision, recall, F1 and IoU each rounded to 4 decimal digits — followed by
exactly one trailing `total` row of the 4-decimal-rounded aggregate scalars,
and each append is prefixed by a single header line identifying the current
epoch, the total epoch count and the mode label. -/
theorem C8_report_format (ld : Option String) (en : String) (ce te : Nat) (mx : ℚ)
    (C : Nat) (fp fr ff fi : Nat → ℚ) (tm : List (String × ℚ)) (mode : String)
    (r : OutputRes)
    (hr : output ld en ce te mx [perClass C fp, perClass C fr, perClass C ff, perClass C fi]
      tm mode = some r) :
    r.appends.map (fun a => (a.2.1, a.2.2)) =
      [(epochHeader ce te mode, tableFor C fp fr ff fi tm)] := by
  have ht : tableRows [perClass C fp, perClass C fr, perClass C ff, perClass C fi]
      (tm.map Prod.snd) = some (tableFor C fp fr ff fi tm) :=
    tableRows_perClass C fp fr ff fi (tm.map Prod.snd)
  by_cases hm : mode = "test"
  · subst hm
    cases hc : (perClass C ff)[1]? with
    | none =>
      rw [output_test_noChange ld en ce te mx _ tm (perClass C ff) rfl hc] at hr
      exact absurd hr (by simp)
    | some v =>
      rw [output_test_some ld en ce te mx _ tm (perClass C ff) v _ ht rfl hc] at hr
      obtain rfl := Option.some.inj hr
      rfl
  · rw [output_not_test ld en ce te mx _ tm mode _ (beq_eq_false_iff_ne.mpr hm) ht] at hr
    obtain rfl := Option.some.inj hr
    rfl

/-- Witness for claim C8 at a concrete zero-class train-mode call. -/
theorem C8_report_format_witness :
    (⟨false, [(pathJoin (baseDir none ("e")) ("train_metrics.txt"), epochHeader 0 1 ("train"),
        tableFor 0 (fun _ => 0) (fun _ => 0) (fun _ => 0) (fun _ => 0) [])], 0⟩ :
      OutputRes).appends.map (fun a => (a.2.1, a.2.2)) =
      [(epochHeader 0 1 ("train"),
        tableFor 0 (fun _ => 0) (fun _ => 0) (fun _ => 0) (fun _ => 0) [])] :=
  C8_report_format none ("e") 0 1 0 0 (fun _ => 0) (fun _ => 0) (fun _ => 0) (fun _ => 0)
    [] ("train") _ rfl
